import Mathlib

/-!
Shallow embedding of the GeNN kernel-generation backend pieces referenced by
the specification: the CUDA presynaptic-update parallelization strategies
(PreSpan, PostSpan, PreSpanProcedural from
src/genn/backends/cuda/presynapticUpdateStrategy.cc) and the NeuronGroup
operations (lib/src/neuronGroup.cc).
-/

/-- Span type of a synapse group: which axis the presynaptic update is
parallelized over (SynapseGroup::SpanType in the source). -/
inductive SpanType where
  | PRESYNAPTIC
  | POSTSYNAPTIC
deriving DecidableEq, Repr

/-- Connectivity representation of the synaptic matrix.  In the source,
SynapseMatrixType carries exactly one SynapseMatrixConnectivity bit
(DENSE, BITMASK, SPARSE or PROCEDURAL); the bit tests
`sg.getMatrixType() & SynapseMatrixConnectivity::X` therefore test which
single representation the group uses, which we model as an enumeration. -/
inductive SynapseMatrixConnectivity where
  | DENSE
  | BITMASK
  | SPARSE
  | PROCEDURAL
deriving DecidableEq, Repr

/-- The fields of SynapseGroupInternal read by the presynaptic-update
strategies.  `dendriticDelayOffsetText` stands for the text returned by
`sg.getDendriticDelayOffset("dd_", "$(1)")` (defined outside src/), which
the strategies splice verbatim into the generated indexing expression. -/
structure SynapseGroup where
  spanType : SpanType
  matrixConn : SynapseMatrixConnectivity
  dendriticDelayRequired : Bool
  srcNumNeurons : Nat
  trgNumNeurons : Nat
  maxConnections : Nat
  numThreadsPerSpike : Nat
  psModelTargetName : String
  dendriticDelayOffsetText : String
deriving DecidableEq, Repr

/-- Kernel categories used as keys for per-kernel block sizes
(the source uses a global kernel enumeration; only KernelPresynapticUpdate
is consulted by the strategies). -/
inductive Kernel where
  | KernelNeuronUpdate
  | KernelPresynapticUpdate
deriving DecidableEq, Repr

/-- The backend capability surface consulted by the strategies:
`chosenCUDADeviceMajor` models `backend.getChosenCUDADevice().major`,
`getKernelBlockSize` models `backend.getKernelBlockSize(kernel)` and
`getFloatAtomicAdd` models `backend.getFloatAtomicAdd(precision)`. -/
structure Backend where
  chosenCUDADeviceMajor : Int
  getKernelBlockSize : Kernel → Nat
  getFloatAtomicAdd : String → String

/-- The part of ModelSpecInternal the strategies read: the numeric
precision passed to getFloatAtomicAdd. -/
structure ModelSpecInternal where
  precision : String

/-- PreSpan::getNumThreads: one thread per presynaptic neuron per
thread-per-spike. -/
def PreSpan.getNumThreads (sg : SynapseGroup) : Nat :=
  sg.srcNumNeurons * sg.numThreadsPerSpike

/-- PreSpan::isCompatible: presynaptic span requested and sparse
connectivity. -/
def PreSpan.isCompatible (sg : SynapseGroup) : Bool :=
  (sg.spanType == SpanType.PRESYNAPTIC)
    && (sg.matrixConn == SynapseMatrixConnectivity.SPARSE)

/-- PreSpan::shouldAccumulateInRegister: always false. -/
def PreSpan.shouldAccumulateInRegister (_sg : SynapseGroup) (_b : Backend) : Bool :=
  false

/-- PreSpan::shouldAccumulateInSharedMemory: false on devices older than
Maxwell (major < 5), false when dendritic delay is required, otherwise
true exactly when the target population fits in one presynaptic-update
block. -/
def PreSpan.shouldAccumulateInSharedMemory (sg : SynapseGroup) (backend : Backend) : Bool :=
  if backend.chosenCUDADeviceMajor < 5 then
    false
  else if sg.dendriticDelayRequired then
    false
  else
    sg.trgNumNeurons ≤ backend.getKernelBlockSize Kernel.KernelPresynapticUpdate

/-- PostSpan::getNumThreads: max connections per row when sparse, else the
target population size. -/
def PostSpan.getNumThreads (sg : SynapseGroup) : Nat :=
  if sg.matrixConn == SynapseMatrixConnectivity.SPARSE then
    sg.maxConnections
  else
    sg.trgNumNeurons

/-- PostSpan::isCompatible: postsynaptic span requested and connectivity
not procedural. -/
def PostSpan.isCompatible (sg : SynapseGroup) : Bool :=
  (sg.spanType == SpanType.POSTSYNAPTIC)
    && !(sg.matrixConn == SynapseMatrixConnectivity.PROCEDURAL)

/-- PostSpan::shouldAccumulateInRegister: true exactly when the matrix is
dense or bitmask (each thread then owns one postsynaptic neuron). -/
def PostSpan.shouldAccumulateInRegister (sg : SynapseGroup) (_b : Backend) : Bool :=
  (sg.matrixConn == SynapseMatrixConnectivity.DENSE)
    || (sg.matrixConn == SynapseMatrixConnectivity.BITMASK)

/-- PostSpan::shouldAccumulateInSharedMemory: false when dendritic delay
is required, otherwise true exactly when the matrix is sparse and the
target population fits in one presynaptic-update block.  Note this
strategy does not consult the device capability tier. -/
def PostSpan.shouldAccumulateInSharedMemory (sg : SynapseGroup) (backend : Backend) : Bool :=
  if sg.dendriticDelayRequired then
    false
  else
    (sg.matrixConn == SynapseMatrixConnectivity.SPARSE)
      && (sg.trgNumNeurons ≤ backend.getKernelBlockSize Kernel.KernelPresynapticUpdate)

/-- PreSpanProcedural::getNumThreads: one thread per presynaptic neuron
per thread-per-spike. -/
def PreSpanProcedural.getNumThreads (sg : SynapseGroup) : Nat :=
  sg.srcNumNeurons * sg.numThreadsPerSpike

/-- PreSpanProcedural::isCompatible: procedural connectivity. -/
def PreSpanProcedural.isCompatible (sg : SynapseGroup) : Bool :=
  sg.matrixConn == SynapseMatrixConnectivity.PROCEDURAL

/-- PreSpanProcedural::shouldAccumulateInRegister: always false. -/
def PreSpanProcedural.shouldAccumulateInRegister (_sg : SynapseGroup) (_b : Backend) : Bool :=
  false

/-- PreSpanProcedural::shouldAccumulateInSharedMemory: identical decision
to PreSpan (device tier, then dendritic delay, then target size versus
block size). -/
def PreSpanProcedural.shouldAccumulateInSharedMemory (sg : SynapseGroup) (backend : Backend) : Bool :=
  if backend.chosenCUDADeviceMajor < 5 then
    false
  else if sg.dendriticDelayRequired then
    false
  else
    sg.trgNumNeurons ≤ backend.getKernelBlockSize Kernel.KernelPresynapticUpdate

/-- Number of strategies whose isCompatible predicate accepts the group;
the selector requires this to be exactly one. -/
def compatibleStrategyCount (sg : SynapseGroup) : Nat :=
  (if PreSpan.isCompatible sg then 1 else 0)
    + (if PostSpan.isCompatible sg then 1 else 0)
    + (if PreSpanProcedural.isCompatible sg then 1 else 0)

/-- A function substitution as registered on the substitution stack by
addFuncSubstitution: placeholder name, argument count and the template
text the placeholder expands to. -/
structure FuncSubst where
  name : String
  numArgs : Nat
  funcBody : String
deriving DecidableEq, Repr

/-- The atomic-add-into-dendritic-delay-buffer template every strategy
builds when dendritic delay is required: the backend atomic-add primitive
applied to the dd_denDelay buffer of the postsynaptic target, indexed by
the dendritic-delay offset and the given postsynaptic index text. -/
def atomicAddDenDelay (model : ModelSpecInternal) (sg : SynapseGroup) (backend : Backend)
    (idPost : String) : String :=
  backend.getFloatAtomicAdd model.precision ++ "(&dd_denDelay" ++ sg.psModelTargetName
    ++ "[" ++ sg.dendriticDelayOffsetText ++ idPost ++ "], $(0))"

/-- The accumulation function substitution PreSpan::genCode registers for
the weight-update sim code (lines 141-155 of the source): the dendritic
branch wins over both accumulation policies. -/
def PreSpan.synAccumSubstitution (model : ModelSpecInternal) (sg : SynapseGroup)
    (backend : Backend) : FuncSubst :=
  if sg.dendriticDelayRequired then
    ⟨"addToInSynDelay", 2, atomicAddDenDelay model sg backend "ipost"⟩
  else if PreSpan.shouldAccumulateInSharedMemory sg backend then
    ⟨"addToInSyn", 1, backend.getFloatAtomicAdd model.precision ++ "(&shLg[ipost], $(0))"⟩
  else
    ⟨"addToInSyn", 1, backend.getFloatAtomicAdd model.precision
      ++ "(&dd_inSyn" ++ sg.psModelTargetName ++ "[ipost], $(0))"⟩

/-- The id_post text PostSpan::genCode binds before choosing the
accumulation substitution: "ipost" for sparse rows, otherwise the
population id substitution. -/
def PostSpan.idPostText (sg : SynapseGroup) (popSubsId : String) : String :=
  if sg.matrixConn == SynapseMatrixConnectivity.SPARSE then "ipost" else popSubsId

/-- The accumulation function substitution PostSpan::genCode registers
(lines 305-323 of the source). -/
def PostSpan.synAccumSubstitution (model : ModelSpecInternal) (sg : SynapseGroup)
    (backend : Backend) (popSubsId : String) : FuncSubst :=
  if sg.dendriticDelayRequired then
    ⟨"addToInSynDelay", 2, atomicAddDenDelay model sg backend (PostSpan.idPostText sg popSubsId)⟩
  else if sg.matrixConn == SynapseMatrixConnectivity.SPARSE then
    if PostSpan.shouldAccumulateInSharedMemory sg backend then
      ⟨"addToInSyn", 1, "shLg[" ++ PostSpan.idPostText sg popSubsId ++ "] += $(0)"⟩
    else
      ⟨"addToInSyn", 1, backend.getFloatAtomicAdd model.precision
        ++ "(&dd_inSyn" ++ sg.psModelTargetName ++ "[" ++ PostSpan.idPostText sg popSubsId
        ++ "], $(0))"⟩
  else
    ⟨"addToInSyn", 1, "linSyn += $(0)"⟩

/-- The accumulation function substitution PreSpanProcedural::genCode
registers (lines 465-479 of the source); id_post is itself a placeholder
because the sim code is spliced into connectivity-generation code. -/
def PreSpanProcedural.synAccumSubstitution (model : ModelSpecInternal) (sg : SynapseGroup)
    (backend : Backend) : FuncSubst :=
  if sg.dendriticDelayRequired then
    ⟨"addToInSynDelay", 2, atomicAddDenDelay model sg backend "$(id_post)"⟩
  else if PreSpanProcedural.shouldAccumulateInSharedMemory sg backend then
    ⟨"addToInSyn", 1, backend.getFloatAtomicAdd model.precision ++ "(&shLg[$(id_post)], $(0))"⟩
  else
    ⟨"addToInSyn", 1, backend.getFloatAtomicAdd model.precision
      ++ "(&dd_inSyn" ++ sg.psModelTargetName ++ "[$(id_post)], $(0))"⟩

/-- Modelled from the spec: Utils::ceilDivide (defined in the CUDA
backend utils header, not under src/); the spec calls it
ceil(targetCount / threadsPerSpike). -/
def Utils.ceilDivide (numerator denominator : Nat) : Nat :=
  (numerator + denominator - 1) / denominator

/-- The per-thread sub-row length PreSpanProcedural::genCode computes when
more than one thread processes each row (line 498 of the source). -/
def PreSpanProcedural.numPostPerThread (sg : SynapseGroup) : Nat :=
  Utils.ceilDivide sg.trgNumNeurons sg.numThreadsPerSpike

/-- The num_post value the generated code gives to a thread (lines
496-515 of the source): when numPostPerThread divides the target count
every thread receives numPostPerThread, otherwise the last thread
receives the remainder and every other thread numPostPerThread. -/
def PreSpanProcedural.numPostForThread (sg : SynapseGroup) (thread : Nat) : Nat :=
  if sg.trgNumNeurons % PreSpanProcedural.numPostPerThread sg == 0 then
    PreSpanProcedural.numPostPerThread sg
  else if thread == sg.numThreadsPerSpike - 1 then
    sg.trgNumNeurons % PreSpanProcedural.numPostPerThread sg
  else
    PreSpanProcedural.numPostPerThread sg

/-- The id_post_begin value the generated code gives to a thread
(line 501 of the source): thread times the sub-row length. -/
def PreSpanProcedural.idPostStartForThread (sg : SynapseGroup) (thread : Nat) : Nat :=
  thread * PreSpanProcedural.numPostPerThread sg

/-- NeuronGroup::checkNumDelaySlots as a function of the stored
m_NumDelaySlots: if requiredDelay >= the stored count, the count becomes
requiredDelay + 1, else it is unchanged.  Both quantities are unsigned
ints in the source, so the increment is computed modulo 2^32: at
requiredDelay = UINT_MAX the stored count wraps to 0. -/
def NeuronGroup.checkNumDelaySlots (requiredDelay : Nat) (numDelaySlots : Nat) : Nat :=
  if numDelaySlots ≤ requiredDelay then (requiredDelay + 1) % 2 ^ 32 else numDelaySlots

/-- Modelled from the spec: the initial delay-slot count of a fresh
population (the NeuronGroup constructor is not under src/); the spec
defines the count as the maximum over consumers of delay + 1, so a fresh
population with no consumers holds a single slot. -/
def NeuronGroup.freshNumDelaySlots : Nat := 1

/-- Folding a sequence of checkNumDelaySlots calls over a starting
delay-slot count. -/
def NeuronGroup.applyDelays (delays : List Nat) (start : Nat) : Nat :=
  delays.foldl (fun cur n => NeuronGroup.checkNumDelaySlots n cur) start

/-- Character-list test that `p` begins `s`. -/
def beginsWith : List Char → List Char → Bool
  | [], _ => true
  | _ :: _, [] => false
  | p :: ps, c :: cs => (p == c) && beginsWith ps cs

/-- Character-list substring test, mirroring std::string::find != npos. -/
def containsSub (p : List Char) : List Char → Bool
  | [] => beginsWith p []
  | c :: cs => beginsWith p (c :: cs) || containsSub p cs

/-- The suffix NeuronGroup::updateVarQueues appends to each variable name
before searching the code fragment. -/
def preVarSuffix : List Char := '_' :: 'p' :: 'r' :: 'e' :: []

/-- NeuronGroup::updateVarQueues restricted to the per-variable flags:
the flag of variable i is set when the code contains vars[i] ++ "_pre",
and left as it was otherwise.  Only the "_pre" suffix is searched. -/
def NeuronGroup.updateVarQueuesFlags (vars : List (List Char)) (flags : List Bool)
    (code : List Char) : List Bool :=
  List.zipWith (fun v f => if containsSub (v ++ preVarSuffix) code then true else f) vars flags

/-- Modelled from the spec: isRNGRequired (defined in the code-generator
utils, not under src/) lexically scans a code fragment for the randomness
marker that every gennrand primitive reference begins with. -/
def rngMarker : List Char :=
  '$' :: '(' :: 'g' :: 'e' :: 'n' :: 'n' :: 'r' :: 'a' :: 'n' :: 'd' :: []

/-- Modelled from the spec: a code fragment references a randomness
primitive exactly when it contains the marker. -/
def isRNGRequired (code : List Char) : Bool :=
  containsSub rngMarker code

/-- The apply-input and decay code of the postsynaptic model of one
incoming synapse group, as read by NeuronGroup::isSimRNGRequired. -/
structure PostsynapticModel where
  applyInputCode : List Char
  decayCode : List Char

/-- The fields of NeuronGroup read by isSimRNGRequired: the neuron model
code fragments and the incoming synapse groups. -/
structure NeuronGroupRNG where
  simCode : List Char
  thresholdConditionCode : List Char
  resetCode : List Char
  inSyn : List PostsynapticModel

/-- The loop over incoming synapse groups in NeuronGroup::isSimRNGRequired:
return true at the first postsynaptic model whose apply-input or decay
code requires an RNG. -/
def NeuronGroup.simRNGLoop : List PostsynapticModel → Bool
  | [] => false
  | sg :: rest =>
    if isRNGRequired sg.applyInputCode || isRNGRequired sg.decayCode then
      true
    else
      NeuronGroup.simRNGLoop rest

/-- NeuronGroup::isSimRNGRequired, mirroring the early-return structure of
the source: first the neuron code fragments, then the incoming groups. -/
def NeuronGroup.isSimRNGRequired (ng : NeuronGroupRNG) : Bool :=
  if isRNGRequired ng.simCode || isRNGRequired ng.thresholdConditionCode
      || isRNGRequired ng.resetCode then
    true
  else
    NeuronGroup.simRNGLoop ng.inSyn

/-- A presynaptic-span connection with dense connectivity: no strategy
accepts it. -/
def sgPreDense : SynapseGroup :=
  { spanType := SpanType.PRESYNAPTIC
    matrixConn := SynapseMatrixConnectivity.DENSE
    dendriticDelayRequired := false
    srcNumNeurons := 4
    trgNumNeurons := 4
    maxConnections := 4
    numThreadsPerSpike := 1
    psModelTargetName := "P"
    dendriticDelayOffsetText := "" }

/-- A postsynaptic-span sparse connection small enough for shared-memory
accumulation, without dendritic delay. -/
def sgPostSparseSmall : SynapseGroup :=
  { spanType := SpanType.POSTSYNAPTIC
    matrixConn := SynapseMatrixConnectivity.SPARSE
    dendriticDelayRequired := false
    srcNumNeurons := 4
    trgNumNeurons := 4
    maxConnections := 8
    numThreadsPerSpike := 1
    psModelTargetName := "P"
    dendriticDelayOffsetText := "" }

/-- A sparse presynaptic-span connection with dendritic delay required. -/
def sgDendritic : SynapseGroup :=
  { spanType := SpanType.PRESYNAPTIC
    matrixConn := SynapseMatrixConnectivity.SPARSE
    dendriticDelayRequired := true
    srcNumNeurons := 4
    trgNumNeurons := 4
    maxConnections := 8
    numThreadsPerSpike := 1
    psModelTargetName := "P"
    dendriticDelayOffsetText := "denDelayOffset + " }

/-- A postsynaptic-span dense connection. -/
def sgPostDense : SynapseGroup :=
  { spanType := SpanType.POSTSYNAPTIC
    matrixConn := SynapseMatrixConnectivity.DENSE
    dendriticDelayRequired := false
    srcNumNeurons := 4
    trgNumNeurons := 4
    maxConnections := 4
    numThreadsPerSpike := 1
    psModelTargetName := "P"
    dendriticDelayOffsetText := "" }

/-- A procedural connection with 10 target neurons split over 3 threads
per spike, the partitioning example of the spec. -/
def sgProceduralTen : SynapseGroup :=
  { spanType := SpanType.PRESYNAPTIC
    matrixConn := SynapseMatrixConnectivity.PROCEDURAL
    dendriticDelayRequired := false
    srcNumNeurons := 2
    trgNumNeurons := 10
    maxConnections := 10
    numThreadsPerSpike := 3
    psModelTargetName := "P"
    dendriticDelayOffsetText := "" }

/-- A pre-Maxwell device (capability major 3) with presynaptic-update
block size 32. -/
def backendOld : Backend :=
  { chosenCUDADeviceMajor := 3
    getKernelBlockSize := fun _ => 32
    getFloatAtomicAdd := fun _ => "atomicAdd" }

/-- A Maxwell-or-newer device (capability major 6) with presynaptic-update
block size 32. -/
def backendNew : Backend :=
  { chosenCUDADeviceMajor := 6
    getKernelBlockSize := fun _ => 32
    getFloatAtomicAdd := fun _ => "atomicAdd" }

/-- A model compiled at float precision. -/
def modelFloat : ModelSpecInternal :=
  { precision := "float" }

/-- The single-character variable name V used by concrete inputs. -/
def varV : List Char := 'V' :: []

/-- The "post" counterpart suffix, which updateVarQueues never searches. -/
def postVarSuffix : List Char := '_' :: 'p' :: 'o' :: 's' :: 't' :: []

/-- A code fragment referencing only the post-suffixed form of V. -/
def codeVpost : List Char := 'V' :: '_' :: 'p' :: 'o' :: 's' :: 't' :: []

/-- C1 (counterexample): a presynaptic-span dense connection is accepted
by none of the three strategies, so the isCompatible predicates are not
jointly exhaustive over all span-type and representation combinations. -/
theorem strategyCompat_not_exhaustive_preDense :
    compatibleStrategyCount sgPreDense = 0
      ∧ ¬compatibleStrategyCount sgPreDense = 1 := by
  decide

/-- C1 (amended): the three isCompatible predicates are mutually
exclusive (at most one accepts any connection), and exactly one accepts
every connection except those with presynaptic span and dense or bitmask
representation, which no strategy accepts. -/
theorem strategyCompat_exclusive_and_exhaustive (sg : SynapseGroup) :
    compatibleStrategyCount sg ≤ 1
      ∧ (¬(sg.spanType = SpanType.PRESYNAPTIC
            ∧ (sg.matrixConn = SynapseMatrixConnectivity.DENSE
                ∨ sg.matrixConn = SynapseMatrixConnectivity.BITMASK))
          → compatibleStrategyCount sg = 1) := by
  obtain ⟨span, conn, d, s, t, m, n, p, o⟩ := sg
  cases span <;> cases conn <;>
    simp [compatibleStrategyCount, PreSpan.isCompatible, PostSpan.isCompatible,
      PreSpanProcedural.isCompatible]

/-- Witness for C1 (amended): a postsynaptic-span sparse connection is
accepted by exactly one strategy. -/
theorem strategyCompat_exclusive_and_exhaustive_witness :
    compatibleStrategyCount sgPostSparseSmall = 1 :=
  (strategyCompat_exclusive_and_exhaustive sgPostSparseSmall).2 (by decide)

/-- C2: when dendritic delay is required, every strategy refuses
shared-memory accumulation, whatever the backend capabilities and target
size. -/
theorem sharedMemory_false_when_dendritic (sg : SynapseGroup) (backend : Backend)
    (h : sg.dendriticDelayRequired = true) :
    PreSpan.shouldAccumulateInSharedMemory sg backend = false
      ∧ PostSpan.shouldAccumulateInSharedMemory sg backend = false
      ∧ PreSpanProcedural.shouldAccumulateInSharedMemory sg backend = false := by
  simp [PreSpan.shouldAccumulateInSharedMemory, PostSpan.shouldAccumulateInSharedMemory,
    PreSpanProcedural.shouldAccumulateInSharedMemory, h]

/-- Witness for C2: a concrete dendritic-delay connection on a concrete
backend. -/
theorem sharedMemory_false_when_dendritic_witness :
    PreSpan.shouldAccumulateInSharedMemory sgDendritic backendNew = false
      ∧ PostSpan.shouldAccumulateInSharedMemory sgDendritic backendNew = false
      ∧ PreSpanProcedural.shouldAccumulateInSharedMemory sgDendritic backendNew = false :=
  sharedMemory_false_when_dendritic sgDendritic backendNew rfl

/-- C4 (counterexample): PostSpan accepts shared-memory accumulation on a
device below the minimum capability tier (major 3 < 5), so the claim
that every strategy returns false below the tier is wrong. -/
theorem postSpan_sharedMemory_ignores_device_tier :
    backendOld.chosenCUDADeviceMajor < 5
      ∧ PostSpan.shouldAccumulateInSharedMemory sgPostSparseSmall backendOld = true := by
  decide

/-- C4 (amended): PreSpan and PreSpanProcedural refuse shared-memory
accumulation below device capability major 5, PostSpan does not consult
the tier, and for every strategy a true answer implies the target
population fits in the presynaptic-update block size. -/
theorem sharedMemory_tier_and_blocksize (sg : SynapseGroup) (backend : Backend) :
    (backend.chosenCUDADeviceMajor < 5 →
        PreSpan.shouldAccumulateInSharedMemory sg backend = false
          ∧ PreSpanProcedural.shouldAccumulateInSharedMemory sg backend = false)
      ∧ (PreSpan.shouldAccumulateInSharedMemory sg backend = true →
          sg.trgNumNeurons ≤ backend.getKernelBlockSize Kernel.KernelPresynapticUpdate)
      ∧ (PostSpan.shouldAccumulateInSharedMemory sg backend = true →
          sg.trgNumNeurons ≤ backend.getKernelBlockSize Kernel.KernelPresynapticUpdate)
      ∧ (PreSpanProcedural.shouldAccumulateInSharedMemory sg backend = true →
          sg.trgNumNeurons ≤ backend.getKernelBlockSize Kernel.KernelPresynapticUpdate) := by
  refine ⟨fun h => ?_, fun h => ?_, fun h => ?_, fun h => ?_⟩
  · simp [PreSpan.shouldAccumulateInSharedMemory,
      PreSpanProcedural.shouldAccumulateInSharedMemory, h]
  · simp only [PreSpan.shouldAccumulateInSharedMemory] at h
    split_ifs at h <;> simp_all
  · simp only [PostSpan.shouldAccumulateInSharedMemory] at h
    split_ifs at h <;> simp_all
  · simp only [PreSpanProcedural.shouldAccumulateInSharedMemory] at h
    split_ifs at h <;> simp_all

/-- Witness for C4 (amended): the tier clause applied on a pre-Maxwell
backend and the block-size clause applied to a true PostSpan answer. -/
theorem sharedMemory_tier_and_blocksize_witness :
    (PreSpan.shouldAccumulateInSharedMemory sgPostSparseSmall backendOld = false
        ∧ PreSpanProcedural.shouldAccumulateInSharedMemory sgPostSparseSmall backendOld = false)
      ∧ sgPostSparseSmall.trgNumNeurons
          ≤ backendNew.getKernelBlockSize Kernel.KernelPresynapticUpdate :=
  ⟨(sharedMemory_tier_and_blocksize sgPostSparseSmall backendOld).1 (by decide),
    (sharedMemory_tier_and_blocksize sgPostSparseSmall backendNew).2.2.1 (by decide)⟩

/-- C5: for a postsynaptic-span connection with dense or bitmask
representation, PostSpan accumulates in a register, on every backend. -/
theorem postSpan_register_dense_bitmask (sg : SynapseGroup) (backend : Backend)
    (hspan : sg.spanType = SpanType.POSTSYNAPTIC)
    (hconn : sg.matrixConn = SynapseMatrixConnectivity.DENSE
        ∨ sg.matrixConn = SynapseMatrixConnectivity.BITMASK) :
    PostSpan.shouldAccumulateInRegister sg backend = true := by
  rcases hconn with h | h <;> simp [PostSpan.shouldAccumulateInRegister, h]

/-- Witness for C5: a concrete dense postsynaptic-span connection. -/
theorem postSpan_register_dense_bitmask_witness :
    PostSpan.shouldAccumulateInRegister sgPostDense backendNew = true :=
  postSpan_register_dense_bitmask sgPostDense backendNew rfl (Or.inl rfl)

/-- C10: PostSpan grants shared-memory accumulation only for sparse
connectivity; dense and bitmask connections never use it and accumulate
in a register instead, on every backend. -/
theorem postSpan_sharedMemory_only_sparse (sg : SynapseGroup) (backend : Backend) :
    (PostSpan.shouldAccumulateInSharedMemory sg backend = true →
        sg.matrixConn = SynapseMatrixConnectivity.SPARSE)
      ∧ ((sg.matrixConn = SynapseMatrixConnectivity.DENSE
            ∨ sg.matrixConn = SynapseMatrixConnectivity.BITMASK) →
          PostSpan.shouldAccumulateInSharedMemory sg backend = false
            ∧ PostSpan.shouldAccumulateInRegister sg backend = true) := by
  constructor
  · intro h
    simp only [PostSpan.shouldAccumulateInSharedMemory] at h
    split_ifs at h <;> simp_all
  · rintro (h | h) <;>
      simp [PostSpan.shouldAccumulateInSharedMemory, PostSpan.shouldAccumulateInRegister, h]

/-- Witness for C10: the sparse direction on a concrete sparse connection
and the dense direction on a concrete dense connection. -/
theorem postSpan_sharedMemory_only_sparse_witness :
    sgPostSparseSmall.matrixConn = SynapseMatrixConnectivity.SPARSE
      ∧ (PostSpan.shouldAccumulateInSharedMemory sgPostDense backendNew = false
          ∧ PostSpan.shouldAccumulateInRegister sgPostDense backendNew = true) :=
  ⟨(postSpan_sharedMemory_only_sparse sgPostSparseSmall backendNew).1 (by decide),
    (postSpan_sharedMemory_only_sparse sgPostDense backendNew).2 (Or.inl rfl)⟩

/-- C3: whenever dendritic delay is required, every strategy binds the
addToInSynDelay function substitution to the backend atomic-add primitive
applied to the dendritic-delay buffer, whatever accumulation policy the
strategy would otherwise pick. -/
theorem dendritic_write_atomic (model : ModelSpecInternal) (sg : SynapseGroup)
    (backend : Backend) (popSubsId : String)
    (h : sg.dendriticDelayRequired = true) :
    PreSpan.synAccumSubstitution model sg backend
        = ⟨"addToInSynDelay", 2, atomicAddDenDelay model sg backend "ipost"⟩
      ∧ PostSpan.synAccumSubstitution model sg backend popSubsId
        = ⟨"addToInSynDelay", 2,
            atomicAddDenDelay model sg backend (PostSpan.idPostText sg popSubsId)⟩
      ∧ PreSpanProcedural.synAccumSubstitution model sg backend
        = ⟨"addToInSynDelay", 2, atomicAddDenDelay model sg backend "$(id_post)"⟩ := by
  simp [PreSpan.synAccumSubstitution, PostSpan.synAccumSubstitution,
    PreSpanProcedural.synAccumSubstitution, h]

/-- Witness for C3: on a concrete dendritic-delay connection the PreSpan
substitution is the literal atomic-add-into-dd_denDelay text. -/
theorem dendritic_write_atomic_witness :
    PreSpan.synAccumSubstitution modelFloat sgDendritic backendNew
      = ⟨"addToInSynDelay", 2, "atomicAdd(&dd_denDelayP[denDelayOffset + ipost], $(0))"⟩ :=
  (dendritic_write_atomic modelFloat sgDendritic backendNew "id" rfl).1

/-- C6 (counterexample): at requiredDelay = UINT_MAX the unsigned
increment in the source wraps, so the stored count drops from 6 to 0:
the claimed max(current, n+1) update and monotonicity fail there, and
applying 5 then UINT_MAX from a fresh population ends at 0 while the
reverse order ends at 6, refuting order-independence. -/
theorem checkNumDelaySlots_wraps_at_uintmax :
    NeuronGroup.checkNumDelaySlots (2 ^ 32 - 1) 6 = 0
      ∧ ¬6 ≤ NeuronGroup.checkNumDelaySlots (2 ^ 32 - 1) 6
      ∧ NeuronGroup.checkNumDelaySlots (2 ^ 32 - 1) 6 ≠ max 6 (2 ^ 32 - 1 + 1)
      ∧ NeuronGroup.applyDelays [5, 2 ^ 32 - 1] NeuronGroup.freshNumDelaySlots = 0
      ∧ NeuronGroup.applyDelays [2 ^ 32 - 1, 5] NeuronGroup.freshNumDelaySlots = 6 := by
  decide

theorem checkNumDelaySlots_eq_max (n : Nat) (hn : n + 1 < 2 ^ 32) (cur : Nat) :
    NeuronGroup.checkNumDelaySlots n cur = max cur (n + 1) := by
  unfold NeuronGroup.checkNumDelaySlots
  rw [Nat.mod_eq_of_lt hn]
  split <;> omega

theorem applyDelays_perm {l1 l2 : List Nat} (h : l1.Perm l2)
    (hsmall : ∀ x ∈ l1, x + 1 < 2 ^ 32) (c : Nat) :
    NeuronGroup.applyDelays l1 c = NeuronGroup.applyDelays l2 c := by
  unfold NeuronGroup.applyDelays
  refine h.foldl_eq' (fun x hx y hy z => ?_) c
  simp only [checkNumDelaySlots_eq_max x (hsmall x hx), checkNumDelaySlots_eq_max y (hsmall y hy)]
  omega

/-- C6 (amended): for requiredDelay values whose increment does not wrap
the 32-bit unsigned range, checkNumDelaySlots raises the stored count to
max(current, n+1) and is monotone, idempotent and order-independent; in
particular applying 2, 5, 1 in any order to a fresh population leaves
the count at 6.  At requiredDelay = UINT_MAX the increment wraps to 0. -/
theorem checkNumDelaySlots_spec (n m cur : Nat) (l : List Nat)
    (hn : n + 1 < 2 ^ 32) (hm : m + 1 < 2 ^ 32) (hl : l.Perm [2, 5, 1]) :
    NeuronGroup.checkNumDelaySlots n cur = max cur (n + 1)
      ∧ cur ≤ NeuronGroup.checkNumDelaySlots n cur
      ∧ NeuronGroup.checkNumDelaySlots n (NeuronGroup.checkNumDelaySlots n cur)
          = NeuronGroup.checkNumDelaySlots n cur
      ∧ NeuronGroup.checkNumDelaySlots m (NeuronGroup.checkNumDelaySlots n cur)
          = NeuronGroup.checkNumDelaySlots n (NeuronGroup.checkNumDelaySlots m cur)
      ∧ NeuronGroup.applyDelays l NeuronGroup.freshNumDelaySlots = 6 := by
  refine ⟨checkNumDelaySlots_eq_max n hn cur, ?_, ?_, ?_, ?_⟩
  · simp only [checkNumDelaySlots_eq_max n hn]
    omega
  · simp only [checkNumDelaySlots_eq_max n hn]
    omega
  · simp only [checkNumDelaySlots_eq_max n hn, checkNumDelaySlots_eq_max m hm]
    omega
  · have hsmall : ∀ x ∈ l, x + 1 < 2 ^ 32 := by
      intro x hx
      have hx2 : x ∈ [2, 5, 1] := hl.subset hx
      simp only [List.mem_cons, List.not_mem_nil, or_false] at hx2
      rcases hx2 with rfl | rfl | rfl <;> decide
    rw [applyDelays_perm hl hsmall]
    decide

/-- Witness for C6 (amended): the order 5, 1, 2 from a fresh population
ends at 6. -/
theorem checkNumDelaySlots_spec_witness :
    NeuronGroup.applyDelays [5, 1, 2] NeuronGroup.freshNumDelaySlots = 6 :=
  (checkNumDelaySlots_spec 2 5 1 [5, 1, 2] (by decide) (by decide) (by decide)).2.2.2.2

/-- C7: with more than one thread per spike, every thread except the last
receives a sub-row of length ceil(targetCount / threadsPerSpike) starting
at thread times that length; the last thread receives the remainder when
the sub-row length does not divide the target count and a full sub-row
when it does; for 10 targets over 3 threads the sizes are 4, 4, 2. -/
theorem proceduralPartition (sg : SynapseGroup) (h : 1 < sg.numThreadsPerSpike) :
    (∀ t, t < sg.numThreadsPerSpike - 1 →
        PreSpanProcedural.numPostForThread sg t = PreSpanProcedural.numPostPerThread sg)
      ∧ (sg.trgNumNeurons % PreSpanProcedural.numPostPerThread sg ≠ 0 →
          PreSpanProcedural.numPostForThread sg (sg.numThreadsPerSpike - 1)
            = sg.trgNumNeurons % PreSpanProcedural.numPostPerThread sg)
      ∧ (sg.trgNumNeurons % PreSpanProcedural.numPostPerThread sg = 0 →
          PreSpanProcedural.numPostForThread sg (sg.numThreadsPerSpike - 1)
            = PreSpanProcedural.numPostPerThread sg)
      ∧ (∀ t, PreSpanProcedural.idPostStartForThread sg t
            = t * PreSpanProcedural.numPostPerThread sg)
      ∧ (PreSpanProcedural.numPostPerThread sgProceduralTen = 4
          ∧ PreSpanProcedural.numPostForThread sgProceduralTen 0 = 4
          ∧ PreSpanProcedural.numPostForThread sgProceduralTen 1 = 4
          ∧ PreSpanProcedural.numPostForThread sgProceduralTen 2 = 2) := by
  refine ⟨fun t ht => ?_, fun hne => ?_, fun heq => ?_, fun t => rfl, by decide⟩
  · unfold PreSpanProcedural.numPostForThread
    split_ifs with h1 h2
    · rfl
    · simp only [beq_iff_eq] at h2
      omega
    · rfl
  · unfold PreSpanProcedural.numPostForThread
    split_ifs with h1 h2
    · simp only [beq_iff_eq] at h1
      omega
    · rfl
    · exact absurd trivial (by simpa using h2)
  · unfold PreSpanProcedural.numPostForThread
    split_ifs with h1 h2
    · rfl
    · simp only [beq_iff_eq] at h1
      omega
    · simp only [beq_iff_eq] at h1
      omega

/-- Witness for C7: the 10-target, 3-thread example evaluates to block
sizes 4, 4 and 2. -/
theorem proceduralPartition_witness :
    PreSpanProcedural.numPostPerThread sgProceduralTen = 4
      ∧ PreSpanProcedural.numPostForThread sgProceduralTen 0 = 4
      ∧ PreSpanProcedural.numPostForThread sgProceduralTen 1 = 4
      ∧ PreSpanProcedural.numPostForThread sgProceduralTen 2 = 2 :=
  (proceduralPartition sgProceduralTen (by decide)).2.2.2.2

/-- C8 (counterexample): a code fragment containing only the post-suffixed
reference V_post leaves the flag of V unset even though the post-suffixed
form occurs, so updateVarQueues does not react to both suffix forms. -/
theorem updateVarQueues_ignores_post_suffix :
    NeuronGroup.updateVarQueuesFlags [varV] [false] codeVpost = [false]
      ∧ containsSub (varV ++ postVarSuffix) codeVpost = true := by
  decide

/-- C8 (amended): starting from all-unset flags, updateVarQueues flags a
variable exactly when the code fragment contains the variable name with
the "_pre" suffix; the "_post" form is never searched. -/
theorem updateVarQueues_flags_pre_only (vars : List (List Char)) (code : List Char) :
    NeuronGroup.updateVarQueuesFlags vars (List.replicate vars.length false) code
      = vars.map (fun v => containsSub (v ++ preVarSuffix) code) := by
  induction vars with
  | nil => rfl
  | cons v vs ih =>
    have hb : ∀ c : Bool, (if c then true else false) = c := by decide
    simp only [NeuronGroup.updateVarQueuesFlags, List.length_cons, List.replicate_succ,
      List.zipWith_cons_cons, List.map_cons, hb] at ih ⊢
    rw [ih]

theorem simRNGLoop_iff (l : List PostsynapticModel) :
    NeuronGroup.simRNGLoop l = true
      ↔ ∃ sg ∈ l, isRNGRequired sg.applyInputCode = true
          ∨ isRNGRequired sg.decayCode = true := by
  induction l with
  | nil => simp [NeuronGroup.simRNGLoop]
  | cons sg rest ih =>
    unfold NeuronGroup.simRNGLoop
    split_ifs with h
    · simp only [Bool.or_eq_true] at h
      simp only [true_iff]
      exact ⟨sg, List.mem_cons_self sg rest, h⟩
    · simp only [Bool.or_eq_true, not_or] at h
      rw [ih]
      constructor
      · rintro ⟨x, hx, hrng⟩
        exact ⟨x, List.mem_cons_of_mem sg hx, hrng⟩
      · rintro ⟨x, hx, hrng⟩
        rcases List.mem_cons.mp hx with hx | hx
        · cases hx
          rcases hrng with hr | hr
          · exact absurd hr (by simpa using h.1)
          · exact absurd hr (by simpa using h.2)
        · exact ⟨x, hx, hrng⟩

/-- C9: isSimRNGRequired is true exactly when the sim, threshold or reset
code of the population references the randomness marker, or the
apply-input or decay code of the postsynaptic model of some incoming
synapse group does. -/
theorem isSimRNGRequired_iff (ng : NeuronGroupRNG) :
    NeuronGroup.isSimRNGRequired ng = true
      ↔ (isRNGRequired ng.simCode = true
          ∨ isRNGRequired ng.thresholdConditionCode = true
          ∨ isRNGRequired ng.resetCode = true
          ∨ ∃ sg ∈ ng.inSyn,
              isRNGRequired sg.applyInputCode = true
                ∨ isRNGRequired sg.decayCode = true) := by
  unfold NeuronGroup.isSimRNGRequired
  split_ifs with h
  · simp only [Bool.or_eq_true] at h
    simp only [true_iff]
    tauto
  · simp only [Bool.or_eq_true, not_or] at h
    rw [simRNGLoop_iff]
    constructor
    · intro hx
      exact Or.inr (Or.inr (Or.inr hx))
    · rintro (hx | hx | hx | hx)
      · exact absurd hx (by simpa using h.1.1)
      · exact absurd hx (by simpa using h.1.2)
      · exact absurd hx (by simpa using h.2)
      · exact hx
